import Mathlib

/-!
Shallow embedding of the analytics core of `src/Inventario.py`
(inventory-dashboard KPI engine) and proofs about the claims C1..C10.

Conventions of the embedding:
* A spreadsheet cell value is a `PyVal`: `PyVal.none` models a missing
  cell (Python `None` / pandas `NaN`), `num` a Python number (int/float,
  modelled as an exact rational), `str` a string, `time` a
  `datetime.time`-like value exposing `hour`/`minute`/`second`.
* Python floats are modelled as `ℚ`.  `float(x)` is modelled by
  `float?` returning `Option ℚ`: `Option.none` when the conversion
  raises.  For a missing cell the outcome of every classifier below is
  the same whether the cell reifies as `None` (`float` raises) or as
  `NaN` (all `NaN` comparisons are false), and each match arm mirrors
  that common outcome.
* Python string primitives (`strip`, `lower`, `split`, `in`) are
  re-implemented on `List Char` (`recorta`, `minusculas`, `divide`,
  `contiene`) so that concrete instances evaluate inside the kernel;
  they have the textbook semantics of the Python originals.
* The literal parsers model the core of Python `int()` / `float()`
  (optional whitespace, sign, digits, decimal point, exponent); the
  exotic `inf`/`nan` literals and digit-group underscores are not
  modelled, and no claim exercises them.
-/

/-- A raw cell value as the pandas pipeline sees it. -/
inductive PyVal where
  | none : PyVal
  | num (q : ℚ) : PyVal
  | str (s : String) : PyVal
  | time (hour minute second : ℕ) : PyVal
deriving DecidableEq

/-- Model of `pd.isna`: true exactly on a missing cell. -/
def es_na : PyVal → Bool
  | PyVal.none => true
  | _ => false

/-- Python `str.strip()` on a character list. -/
def recorta (l : List Char) : List Char :=
  ((l.dropWhile Char.isWhitespace).reverse.dropWhile Char.isWhitespace).reverse

/-- Python `str.lower()` (ASCII case mapping suffices for the
status vocabulary of this dashboard). -/
def minusculas (s : String) : String :=
  String.mk (s.toList.map Char.toLower)

/-- Python `str.split(sep)` for a one-character separator. -/
def divide (sep : Char) : List Char → List (List Char)
  | [] => [[]]
  | c :: rest =>
      if c == sep then [] :: divide sep rest
      else
        match divide sep rest with
        | g :: gs => (c :: g) :: gs
        | [] => [[c]]

/-- Python substring test `pat in s` (for a non-empty pattern). -/
def empieza_con : List Char → List Char → Bool
  | [], _ => true
  | _ :: _, [] => false
  | p :: ps, c :: cs => p == c && empieza_con ps cs

/-- Python substring test `pat in s` (for a non-empty pattern). -/
def contiene (pat : List Char) : List Char → Bool
  | [] => false
  | c :: rest => empieza_con pat (c :: rest) || contiene pat rest

/-- Numeric value of a list of decimal digit characters. -/
def val_digitos (l : List Char) : ℕ :=
  l.foldl (fun a c => a * 10 + (c.toNat - 48)) 0

/-- Python `int(s)` on a string: strip whitespace, optional sign,
then decimal digits only; `Option.none` when `int` raises. -/
def parse_int? (l : List Char) : Option ℤ :=
  let l := recorta l
  let sl : ℤ × List Char :=
    match l with
    | '+' :: r => (1, r)
    | '-' :: r => (-1, r)
    | r => (1, r)
  if !sl.2.isEmpty && sl.2.all Char.isDigit then some (sl.1 * val_digitos sl.2)
  else Option.none

/-- Exponent part of a float literal: optional sign then digits;
returns the exponent and the unconsumed rest. -/
def parse_exp? (l : List Char) : Option (ℤ × List Char) :=
  let sl : ℤ × List Char :=
    match l with
    | '+' :: r => (1, r)
    | '-' :: r => (-1, r)
    | r => (1, r)
  let ds := sl.2.takeWhile Char.isDigit
  let rest := sl.2.dropWhile Char.isDigit
  if ds.isEmpty then Option.none else some (sl.1 * val_digitos ds, rest)

/-- Python `float(s)` on a string: strip whitespace, optional sign,
`digits [. digits]` (at least one digit), optional exponent;
`Option.none` when `float` raises. -/
def parse_float? (s : String) : Option ℚ :=
  let l := recorta s.toList
  let sl : ℚ × List Char :=
    match l with
    | '+' :: r => (1, r)
    | '-' :: r => (-1, r)
    | r => (1, r)
  let ip := sl.2.takeWhile Char.isDigit
  let l1 := sl.2.dropWhile Char.isDigit
  let fpl : List Char × List Char :=
    match l1 with
    | '.' :: r => (r.takeWhile Char.isDigit, r.dropWhile Char.isDigit)
    | r => ([], r)
  if ip.isEmpty && fpl.1.isEmpty then Option.none
  else
    let exl : Option (ℤ × List Char) :=
      match fpl.2 with
      | 'e' :: r => parse_exp? r
      | 'E' :: r => parse_exp? r
      | r => some (0, r)
    match exl with
    | some (e, []) =>
        some (sl.1 * ((val_digitos ip : ℚ) + (val_digitos fpl.1 : ℚ) / 10 ^ fpl.1.length)
              * (10 : ℚ) ^ e)
    | _ => Option.none

/-- Python `float(x)` on a cell value.  `float` raises `TypeError` on a
missing cell (`None`) and on a `datetime.time`; on a string it parses a
float literal. -/
def float? : PyVal → Option ℚ
  | PyVal.none => Option.none
  | PyVal.num q => some q
  | PyVal.str s => parse_float? s
  | PyVal.time _ _ _ => Option.none

/-- The colon-string branch of `a_horas_decimales`:
`parts = x.split(":"); parts += ["0"]*(3-len(parts));
h, m, s = map(int, parts[:3])`; `Option.none` when some `int` raises. -/
def parse_duracion? (s : String) : Option (ℤ × ℤ × ℤ) :=
  let parts := divide ':' s.toList
  let parts := (parts ++ List.replicate (3 - parts.length) "0".toList).take 3
  match parts with
  | [a, b, c] =>
      match parse_int? a, parse_int? b, parse_int? c with
      | some h, some m, some sec => some (h, m, sec)
      | _, _, _ => Option.none
  | _ => Option.none

/-- Embedding of `a_horas_decimales` (src/Inventario.py lines 198-209).
* missing (`pd.isna`) → 0;
* string → split on `:`, pad to three components, convert each with
  `int`; any failure → 0; otherwise `h + m/60 + s/3600`;
* any other value → `getattr(x,"hour",0) + getattr(x,"minute",0)/60 +
  getattr(x,"second",0)/3600`: for a time-of-day value this is the same
  formula, and for a plain number (no such attributes) every `getattr`
  yields the default 0, so the result is 0 — the trailing `float(x)`
  fallback is reachable only when the attribute arithmetic itself
  raises, which no `PyVal` constructor can cause. -/
def a_horas_decimales : PyVal → ℚ
  | PyVal.none => 0
  | PyVal.str s =>
      match parse_duracion? s with
      | some (h, m, sec) => (h : ℚ) + (m : ℚ) / 60 + (sec : ℚ) / 3600
      | Option.none => 0
  | PyVal.time h m sec => (h : ℚ) + (m : ℚ) / 60 + (sec : ℚ) / 3600
  | PyVal.num _ => 0

/-- Embedding of `es_pct_completo` (src/Inventario.py lines 303-311):
`val = float(v); if val <= 1: return val >= 0.99 else: return val >= 99`,
any exception → `False`.  A pandas-missing cell yields `False` on both
reifications (`float(None)` raises; `NaN` comparisons are all false). -/
def es_pct_completo (v : PyVal) : Bool :=
  match float? v with
  | some val => if val ≤ 1 then decide (val ≥ 0.99) else decide (val ≥ 99)
  | Option.none => false

/-- One data row after header normalization (src/Inventario.py lines
226-246).  Categorical cells are `Option String` (`Option.none` = missing),
count cells `Option ℚ`, the raw duration and the `%_completado` cell keep
their raw `PyVal` form.  `codigo_inventario` is `Option String` because
pandas `nunique`/`groupby` drop missing codes.  The two date columns are
not modelled: no claim depends on the date-range filter. -/
structure Row where
  cliente : Option String := Option.none
  coordinador : Option String := Option.none
  tipo_de_inventario : Option String := Option.none
  estado_de_inventario : Option String := Option.none
  prioridad : Option String := Option.none
  contador : Option String := Option.none
  codigo_inventario : Option String := Option.none
  total_horas : PyVal := PyVal.none
  contenedores_asignados : Option ℚ := Option.none
  contenedores_contados : Option ℚ := Option.none
  ubicaciones_asignadas : Option ℚ := Option.none
  ubicaciones_contadas : Option ℚ := Option.none
  pct_completado : PyVal := PyVal.none
deriving DecidableEq

/-- Derived column `horas_decimal = df["total_horas"].apply(a_horas_decimales)`. -/
def horas_decimal (r : Row) : ℚ := a_horas_decimales r.total_horas

/-! ### KPI engine (src/Inventario.py lines 282-323)
Each KPI is a function of the filtered row set `rows`. -/

/-- KPI `total_horas = df["horas_decimal"].sum()`. -/
def total_horas (rows : List Row) : ℚ := (rows.map horas_decimal).sum

/-- Total `df["contenedores_asignados"].fillna(0).sum()`. -/
def total_contenedores_asig (rows : List Row) : ℚ :=
  (rows.map (fun r => r.contenedores_asignados.getD 0)).sum

/-- Total `df["contenedores_contados"].fillna(0).sum()`. -/
def total_contenedores_cont (rows : List Row) : ℚ :=
  (rows.map (fun r => r.contenedores_contados.getD 0)).sum

/-- Total `df["ubicaciones_asignadas"].fillna(0).sum()`. -/
def total_ubic_asig (rows : List Row) : ℚ :=
  (rows.map (fun r => r.ubicaciones_asignadas.getD 0)).sum

/-- Total `df["ubicaciones_contadas"].fillna(0).sum()`. -/
def total_ubic_cont (rows : List Row) : ℚ :=
  (rows.map (fun r => r.ubicaciones_contadas.getD 0)).sum

/-- KPI `df["codigo_inventario"].nunique()`: distinct non-missing codes. -/
def inventarios_unicos (rows : List Row) : ℕ :=
  ((rows.filterMap Row.codigo_inventario).toFinset).card

/-- KPI `avance_contenedores = (cont/asig) if asig else 0`. -/
def avance_contenedores (rows : List Row) : ℚ :=
  if total_contenedores_asig rows = 0 then 0
  else total_contenedores_cont rows / total_contenedores_asig rows

/-- KPI `avance_ubicaciones = (cont/asig) if asig else 0`. -/
def avance_ubicaciones (rows : List Row) : ℚ :=
  if total_ubic_asig rows = 0 then 0
  else total_ubic_cont rows / total_ubic_asig rows

/-- KPI `backlog_contenedores = max(asig - cont, 0)`. -/
def backlog_contenedores (rows : List Row) : ℚ :=
  max (total_contenedores_asig rows - total_contenedores_cont rows) 0

/-- KPI `backlog_ubicaciones = max(asig - cont, 0)`. -/
def backlog_ubicaciones (rows : List Row) : ℚ :=
  max (total_ubic_asig rows - total_ubic_cont rows) 0

/-! ### Extended completion recognition (src/Inventario.py lines 296-319) -/

/-- The fixed `estados_completos` synonym set. -/
def estados_completos : List String :=
  ["completado", "completada", "completo",
   "finalizado", "finalizada", "terminado", "terminada",
   "cerrado", "cerrada", "ok", "hecho", "listo"]

/-- Normalized status `df["estado_de_inventario"].astype(str).str.lower().str.strip()`:
a missing status stringifies to `"nan"` before lowering/stripping. -/
def estado_norm (r : Row) : String :=
  match r.estado_de_inventario with
  | Option.none => "nan"
  | some s => String.mk (recorta (minusculas s).toList)

/-- Status signal `mask_estado`: normalized status in the synonym set, or containing
the substring `"100"`. -/
def mask_estado (r : Row) : Bool :=
  estados_completos.contains (estado_norm r) ||
    contiene "100".toList (estado_norm r).toList

/-- Percentage signal `mask_pct = df[col_pct].apply(es_pct_completo)`. -/
def mask_pct (r : Row) : Bool := es_pct_completo r.pct_completado

/-- Count `cumplidos = df.loc[mask_estado | mask_pct, "codigo_inventario"].nunique()`. -/
def cumplidos (rows : List Row) : ℕ :=
  (((rows.filter (fun r => mask_estado r || mask_pct r)).filterMap
      Row.codigo_inventario).toFinset).card

/-- KPI `tasa_cumplimiento = (cumplidos/total_invs) if total_invs else 0`. -/
def tasa_cumplimiento (rows : List Row) : ℚ :=
  if inventarios_unicos rows = 0 then 0
  else (cumplidos rows : ℚ) / (inventarios_unicos rows : ℚ)

/-- The distinct non-missing inventory codes (the `groupby` keys;
pandas `groupby` drops missing keys by default). -/
def codigos (rows : List Row) : List String :=
  (rows.filterMap Row.codigo_inventario).dedup

/-- Per-inventory-code summed decimal hours. -/
def horas_por_codigo (rows : List Row) (c : String) : ℚ :=
  ((rows.filter (fun r => r.codigo_inventario == some c)).map horas_decimal).sum

/-- KPI `duracion_prom_por_inv = df.groupby("codigo_inventario")
["horas_decimal"].sum().mean() if total_invs else 0`. -/
def duracion_prom_por_inv (rows : List Row) : ℚ :=
  if inventarios_unicos rows = 0 then 0
  else ((codigos rows).map (horas_por_codigo rows)).sum / ((codigos rows).length : ℚ)

/-- KPI `prod_global_cont = (total_cont/total_horas) if total_horas else 0`. -/
def prod_global_cont (rows : List Row) : ℚ :=
  if total_horas rows = 0 then 0
  else total_contenedores_cont rows / total_horas rows

/-- KPI `prod_global_ubic = (total_ubic/total_horas) if total_horas else 0`. -/
def prod_global_ubic (rows : List Row) : ℚ :=
  if total_horas rows = 0 then 0
  else total_ubic_cont rows / total_horas rows

/-! ### Per-contributor summary `resumen` (src/Inventario.py lines 379-393)
`df.groupby("contador", dropna=False)`: one group per `contador` value,
including a group for the missing value. -/

/-- The rows of one contributor group. -/
def filas_contador (rows : List Row) (c : Option String) : List Row :=
  rows.filter (fun r => r.contador == c)

/-- The groupby keys, with the missing-value bucket (`dropna=False`). -/
def contadores (rows : List Row) : List (Option String) :=
  (rows.map Row.contador).dedup

/-- Column `resumen.horas_totales`: `agg horas_decimal "sum"` per group. -/
def resumen_horas_totales (rows : List Row) (c : Option String) : ℚ :=
  ((filas_contador rows c).map horas_decimal).sum

/-- Column `resumen.contenedores_contados`: per-group sum (pandas skips missing). -/
def resumen_contenedores_contados (rows : List Row) (c : Option String) : ℚ :=
  ((filas_contador rows c).map (fun r => r.contenedores_contados.getD 0)).sum

/-- Column `resumen.ubicaciones_contadas`: per-group sum (pandas skips missing). -/
def resumen_ubicaciones_contadas (rows : List Row) (c : Option String) : ℚ :=
  ((filas_contador rows c).map (fun r => r.ubicaciones_contadas.getD 0)).sum

/-- Column `resumen["productividad_contenedores"] = contenedores_contados /
horas_totales.replace(0, np.nan)` (line 392): dividing by a zero hour
total is made `NaN` explicitly, modelled as `Option.none`. -/
def productividad_contenedores (rows : List Row) (c : Option String) : Option ℚ :=
  if resumen_horas_totales rows c = 0 then Option.none
  else some (resumen_contenedores_contados rows c / resumen_horas_totales rows c)

/-- Column `resumen["productividad_ubicaciones"]` (line 393), as above. -/
def productividad_ubicaciones (rows : List Row) (c : Option String) : Option ℚ :=
  if resumen_horas_totales rows c = 0 then Option.none
  else some (resumen_ubicaciones_contadas rows c / resumen_horas_totales rows c)

/-! ### Default categorical filter (src/Inventario.py lines 259-277)
Each multiselect defaults to `sorted(df[col].dropna().unique())`; the
row set is then reduced by the conjunction of five `isin` predicates.
Sorting only reorders the selection and is irrelevant to membership,
so the default selection is modelled as the deduplicated list of
non-missing values. -/

/-- Default selection of one dimension: `df[col].dropna().unique()`. -/
def seleccion_defecto (rows : List Row) (f : Row → Option String) : List String :=
  (rows.filterMap f).dedup

/-- Membership `df[col].isin(sel)`: a missing cell never matches. -/
def en_seleccion (v : Option String) (sel : List String) : Bool :=
  match v with
  | Option.none => false
  | some s => sel.contains s

/-- The conjunctive five-dimension membership predicate of lines 271-277,
instantiated with the default selections of lines 260-269. -/
def pasa_filtro_defecto (rows : List Row) (r : Row) : Bool :=
  en_seleccion r.cliente (seleccion_defecto rows Row.cliente) &&
  en_seleccion r.coordinador (seleccion_defecto rows Row.coordinador) &&
  en_seleccion r.tipo_de_inventario (seleccion_defecto rows Row.tipo_de_inventario) &&
  en_seleccion r.estado_de_inventario (seleccion_defecto rows Row.estado_de_inventario) &&
  en_seleccion r.prioridad (seleccion_defecto rows Row.prioridad)

/-- The filtered row set under the default `FilterSelection`. -/
def filtro_defecto (rows : List Row) : List Row :=
  rows.filter (pasa_filtro_defecto rows)

/-! ### Schema validation (src/Inventario.py lines 228-237) -/

/-- The `requeridas` list of canonical field names. -/
def requeridas : List String :=
  ["fecha_de_inicio", "fecha_de_termino", "total_horas", "cliente", "coordinador",
   "contenedores_asignados", "contenedores_contados", "ubicaciones_asignadas",
   "ubicaciones_contadas", "contador", "tipo_de_inventario", "prioridad",
   "estado_de_inventario", "codigo_inventario"]

/-- Validation list `faltantes = [c for c in requeridas if c not in df.columns]`. -/
def faltantes (cols : List String) : List String :=
  requeridas.filter (fun c => !(cols.contains c))

/-- The scalar KPI bundle computed downstream of schema validation. -/
structure KPIs where
  kpi_total_horas : ℚ
  kpi_inventarios_unicos : ℕ
  kpi_avance_contenedores : ℚ
  kpi_avance_ubicaciones : ℚ
  kpi_backlog_contenedores : ℚ
  kpi_backlog_ubicaciones : ℚ
  kpi_tasa_cumplimiento : ℚ
  kpi_duracion_prom_por_inv : ℚ
  kpi_prod_global_cont : ℚ
  kpi_prod_global_ubic : ℚ
deriving DecidableEq

/-- The KPI computation of lines 282-323 over a row set. -/
def calcular_kpis (rows : List Row) : KPIs where
  kpi_total_horas := total_horas rows
  kpi_inventarios_unicos := inventarios_unicos rows
  kpi_avance_contenedores := avance_contenedores rows
  kpi_avance_ubicaciones := avance_ubicaciones rows
  kpi_backlog_contenedores := backlog_contenedores rows
  kpi_backlog_ubicaciones := backlog_ubicaciones rows
  kpi_tasa_cumplimiento := tasa_cumplimiento rows
  kpi_duracion_prom_por_inv := duracion_prom_por_inv rows
  kpi_prod_global_cont := prod_global_cont rows
  kpi_prod_global_ubic := prod_global_ubic rows

/-- The validation gate of lines 234-237: when some required canonical
field is missing from the normalized headers, `st.error` surfaces the
`faltantes` list and `st.stop()` halts the script, so no KPI is ever
computed; otherwise the pipeline continues to the KPI engine. -/
def procesar (cols : List String) (rows : List Row) : Except (List String) KPIs :=
  if faltantes cols = [] then Except.ok (calcular_kpis rows)
  else Except.error (faltantes cols)

/-! ### Numeric formatter (src/Inventario.py lines 27-46)
`num_dot` renders `f"{{:,.{decimals}f}}".format(float(x))` and swaps the
thousands/decimal separators; `pct` renders `f"{v:.{decimals}f}%"` after
the same scale auto-detection as the completion classifier.  Python's
fixed-point float formatting is modelled exactly on the rational value
(round-half-to-even at the requested number of decimals). -/

/-- Round to the nearest integer, ties to even (the rounding of
fixed-point float formatting). -/
def redondeo_medio_par (q : ℚ) : ℤ :=
  if q - ⌊q⌋ < 1/2 then ⌊q⌋
  else if q - ⌊q⌋ > 1/2 then ⌊q⌋ + 1
  else if ⌊q⌋ % 2 = 0 then ⌊q⌋ else ⌊q⌋ + 1

/-- Decimal digits of `n`, left-padded with zeros to `minLen` digits. -/
def cadena_digitos (n : ℕ) (minLen : ℕ) : List Char :=
  let ds := (toString n).toList
  List.replicate (minLen - ds.length) '0' ++ ds

/-- Insert `,` every three digits, working on a reversed digit list. -/
def agrupa_miles : List Char → List Char
  | a :: b :: c :: d :: rest => a :: b :: c :: ',' :: agrupa_miles (d :: rest)
  | l => l

/-- Python `f"{q:,.{d}f}"`: fixed-point with comma thousands grouping. -/
def formato_us (q : ℚ) (d : ℕ) : String :=
  let n := redondeo_medio_par (q * 10 ^ d)
  let ds := cadena_digitos n.natAbs (d + 1)
  let ent := ds.take (ds.length - d)
  let frac := ds.drop (ds.length - d)
  let signo := if n < 0 ∨ (n = 0 ∧ q < 0) then "-" else ""
  signo ++ String.mk (agrupa_miles ent.reverse).reverse ++
    (if d = 0 then "" else "." ++ String.mk frac)

/-- Python `f"{q:.{d}f}"`: fixed-point without grouping. -/
def formato_fijo (q : ℚ) (d : ℕ) : String :=
  let n := redondeo_medio_par (q * 10 ^ d)
  let ds := cadena_digitos n.natAbs (d + 1)
  let ent := ds.take (ds.length - d)
  let frac := ds.drop (ds.length - d)
  let signo := if n < 0 ∨ (n = 0 ∧ q < 0) then "-" else ""
  signo ++ String.mk ent ++ (if d = 0 then "" else "." ++ String.mk frac)

/-- Two decimal digits with a leading zero (for `datetime.time` rendering). -/
def pad2 (n : ℕ) : String :=
  if n < 10 then "0" ++ toString n else toString n

/-- Python `str(x)`.  For a number the exact `repr` of a float is not
reproduced digit-for-digit (it is never exercised: `float()` cannot fail
on a number, so `str` is only reached for strings and time values). -/
def py_str : PyVal → String
  | PyVal.none => "None"
  | PyVal.str s => s
  | PyVal.num q => toString q
  | PyVal.time h m s => pad2 h ++ ":" ++ pad2 m ++ ":" ++ pad2 s

/-- Embedding of `num_dot` (src/Inventario.py lines 27-38): missing → 0; format with
thousands commas; swap `,`/`.`; with `decimals == 0` additionally drop a
`",00"` tail; on any exception (i.e. a failing `float(x)`) return
`str(x)` — `x` as possibly already replaced by 0. -/
def num_dot (x : PyVal) (decimals : ℕ) : String :=
  let x0 := if es_na x then PyVal.num 0 else x
  match float? x0 with
  | some q =>
      let fmt := formato_us q decimals
      let fmt := ((fmt.replace "," "X").replace "." ",").replace "X" "."
      if decimals = 0 then fmt.replace ",00" "" else fmt
  | Option.none => py_str x0

/-- Embedding of `pct` (src/Inventario.py lines 40-46): scale auto-detection
(`abs(float(x)) <= 1` → multiply by 100), fixed-point format, append
`%`; on any exception return the constant `"0%"`. -/
def pct (x : PyVal) (decimals : ℕ) : String :=
  match float? x with
  | some f =>
      let v := if |f| ≤ 1 then f * 100 else f
      formato_fijo v decimals ++ "%"
  | Option.none => "0%"

/-! ## Claims -/

/-- C1 (counterexample): the claim asserts `completion_pct = 95` is
classified complete; the code takes the percentage branch (`95 > 1`) and
requires `95 >= 99`, which fails, so 95 is classified not complete. -/
theorem c1_counterexample : es_pct_completo (PyVal.num 95) = false := by
  norm_num [es_pct_completo, float?]

/-- C1 (amended): the completion classifier on `completion_pct` alone
classifies `0.995` as complete (fraction scale, threshold `0.99`),
classifies `95` as NOT complete (percentage scale, threshold `99`,
and `95 < 99`), classifies `0.5` as not complete, and classifies every
missing or non-numeric value as not complete without raising. -/
theorem c1_theorem (s : String) (hs : parse_float? s = Option.none) (h m sec : ℕ) :
    es_pct_completo (PyVal.num 0.995) = true
    ∧ es_pct_completo (PyVal.num 95) = false
    ∧ es_pct_completo (PyVal.num 0.5) = false
    ∧ es_pct_completo PyVal.none = false
    ∧ es_pct_completo (PyVal.str s) = false
    ∧ es_pct_completo (PyVal.time h m sec) = false := by
  refine ⟨?_, ?_, ?_, rfl, ?_, rfl⟩
  · norm_num [es_pct_completo, float?]
  · norm_num [es_pct_completo, float?]
  · norm_num [es_pct_completo, float?]
  · simp [es_pct_completo, float?, hs]

/-- C1 (witness): instance of `c1_theorem` at the non-numeric string
`"abc"`. -/
theorem c1_witness : es_pct_completo (PyVal.str "abc") = false :=
  (c1_theorem ("abc") (by decide) 0 0 0).2.2.2.2.1

/-- C3 (counterexample): the claim asserts the duration parser's result
is non-negative for every input, but `"-1:00:00"` parses through the
colon branch (`int("-1") = -1`) to the negative value `-1`. -/
theorem c3_counterexample : a_horas_decimales (PyVal.str "-1:00:00") < 0 := by
  norm_num [a_horas_decimales,
    show parse_duracion? "-1:00:00" = some (-1, 0, 0) from by decide]

/-- C3 (amended): the duration parser never throws and always yields a
finite rational; for a colon-separated string whose components parse as
integers the result is `h + m/60 + s/3600` (hence non-negative whenever
the components are non-negative, though a negative component yields a
negative result), `"2:30:00"` yields `2.5`; a time-of-day value yields
the same (non-negative) formula; every malformed string (e.g. `"bad"`)
and a missing input yield exactly `0`. -/
theorem c3_theorem (s : String) (h m sec : ℤ) (hp : parse_duracion? s = some (h, m, sec))
    (t : String) (ht : parse_duracion? t = Option.none) (th tm ts : ℕ) :
    a_horas_decimales (PyVal.str s) = (h : ℚ) + (m : ℚ) / 60 + (sec : ℚ) / 3600
    ∧ (0 ≤ h → 0 ≤ m → 0 ≤ sec → 0 ≤ a_horas_decimales (PyVal.str s))
    ∧ a_horas_decimales (PyVal.time th tm ts) = (th : ℚ) + (tm : ℚ) / 60 + (ts : ℚ) / 3600
    ∧ 0 ≤ a_horas_decimales (PyVal.time th tm ts)
    ∧ a_horas_decimales (PyVal.str t) = 0
    ∧ a_horas_decimales PyVal.none = 0
    ∧ a_horas_decimales (PyVal.str "2:30:00") = 5/2
    ∧ a_horas_decimales (PyVal.str "bad") = 0 := by
  have hval : a_horas_decimales (PyVal.str s) = (h : ℚ) + (m : ℚ) / 60 + (sec : ℚ) / 3600 := by
    simp [a_horas_decimales, hp]
  refine ⟨hval, ?_, by simp [a_horas_decimales], ?_, by simp [a_horas_decimales, ht], rfl, ?_, ?_⟩
  · intro hh hm hsec
    rw [hval]
    have h1 : (0 : ℚ) ≤ (h : ℚ) := by exact_mod_cast hh
    have h2 : (0 : ℚ) ≤ (m : ℚ) := by exact_mod_cast hm
    have h3 : (0 : ℚ) ≤ (sec : ℚ) := by exact_mod_cast hsec
    positivity
  · simp only [a_horas_decimales]
    positivity
  · norm_num [a_horas_decimales,
      show parse_duracion? "2:30:00" = some (2, 30, 0) from by decide]
  · norm_num [a_horas_decimales,
      show parse_duracion? "bad" = Option.none from by decide]

/-- C3 (witness): instance of `c3_theorem` at `"2:30:00"`, `"bad"` and
the time value `1:30:00`. -/
theorem c3_witness :
    a_horas_decimales (PyVal.time 1 30 0) = (1 : ℚ) + (30 : ℚ) / 60 + (0 : ℚ) / 3600 :=
  (c3_theorem ("2:30:00") 2 30 0 (by decide) ("bad") (by decide) 1 30 0).2.2.1

/-- C4 (counterexample): the claim asserts both formatters degrade to
`str(x)` on a formatting failure, but `pct` returns the constant `"0%"`:
on the non-numeric input `"abc"` it returns `"0%"`, not `"abc"`. -/
theorem c4_counterexample :
    pct (PyVal.str "abc") 1 = "0%" ∧ py_str (PyVal.str "abc") = "abc"
    ∧ pct (PyVal.str "abc") 1 ≠ py_str (PyVal.str "abc") := by
  refine ⟨?_, rfl, ?_⟩ <;>
    simp [pct, float?, py_str, show parse_float? "abc" = Option.none from by decide]

/-- C4 (amended): on every input whose `float` conversion fails,
`num_dot` returns the literal stringification of the input, while `pct`
returns the constant `"0%"`; neither raises. -/
theorem c4_theorem (x : PyVal) (d : ℕ) (hx : es_na x = false)
    (hf : float? x = Option.none) :
    num_dot x d = py_str x ∧ pct x d = "0%" := by
  constructor
  · simp [num_dot, hx, hf]
  · simp [pct, hf]

/-- C4 (witness): instance of `c4_theorem` at the non-numeric string
`"abc"`. -/
theorem c4_witness : num_dot (PyVal.str "abc") 2 = "abc" :=
  (c4_theorem (PyVal.str "abc") 2 rfl (by decide)).1

/-- Two contributors with heterogeneous hour totals (1 h vs 2 h) whose
counted units are proportional to their hours. -/
def fila_c2a : Row :=
  { contador := some "ana", total_horas := PyVal.time 1 0 0,
    contenedores_contados := some 10 }

/-- Second contributor of the C2 counterexample row set. -/
def fila_c2b : Row :=
  { contador := some "beto", total_horas := PyVal.time 2 0 0,
    contenedores_contados := some 20 }

/-- The C2 counterexample row set. -/
def filas_c2 : List Row := [fila_c2a, fila_c2b]

/-- C2 (counterexample): a filtered set with heterogeneous hour totals
(1 ≠ 2) in which every contributor's per-contributor productivity equals
the global productivity (both are 10 containers/h), refuting "each
contributor's productivity differs from the global productivity". -/
theorem c2_counterexample :
    resumen_horas_totales filas_c2 (some "ana") ≠ resumen_horas_totales filas_c2 (some "beto")
    ∧ productividad_contenedores filas_c2 (some "ana") = some (prod_global_cont filas_c2)
    ∧ productividad_contenedores filas_c2 (some "beto") = some (prod_global_cont filas_c2) := by
  have ha : filas_contador filas_c2 (some "ana") = [fila_c2a] := by decide
  have hb : filas_contador filas_c2 (some "beto") = [fila_c2b] := by decide
  simp only [resumen_horas_totales, productividad_contenedores,
    resumen_contenedores_contados, prod_global_cont, ha, hb]
  norm_num [filas_c2, fila_c2a, fila_c2b, horas_decimal, a_horas_decimales,
    total_horas, total_contenedores_cont]

/-- First contributor of the C2 amended-claim row set. -/
def fila_c2c : Row :=
  { contador := some "ana", total_horas := PyVal.time 1 0 0,
    contenedores_contados := some 10 }

/-- Second contributor of the C2 amended-claim row set. -/
def fila_c2d : Row :=
  { contador := some "beto", total_horas := PyVal.time 2 0 0,
    contenedores_contados := some 0 }

/-- The C2 amended-claim row set. -/
def filas_c2' : List Row := [fila_c2c, fila_c2d]

/-- C2 (amended): per-contributor productivity divides the contributor's
own counted units by that contributor's own hour total, while global
productivity divides the set's total counted units by the set's total
hours; with heterogeneous hour totals the two MAY differ (they need not):
in this set (hours 1 ≠ 2) each contributor's productivity (10 resp. 0)
differs from the global productivity (10/3). -/
theorem c2_theorem :
    resumen_horas_totales filas_c2' (some "ana") ≠ resumen_horas_totales filas_c2' (some "beto")
    ∧ productividad_contenedores filas_c2' (some "ana") ≠ some (prod_global_cont filas_c2')
    ∧ productividad_contenedores filas_c2' (some "beto") ≠ some (prod_global_cont filas_c2') := by
  have ha : filas_contador filas_c2' (some "ana") = [fila_c2c] := by decide
  have hb : filas_contador filas_c2' (some "beto") = [fila_c2d] := by decide
  simp only [resumen_horas_totales, productividad_contenedores,
    resumen_contenedores_contados, prod_global_cont, ha, hb]
  norm_num [filas_c2', fila_c2c, fila_c2d, horas_decimal, a_horas_decimales,
    total_horas, total_contenedores_cont]

/-- The single row of the C8 scenario: 100 containers assigned, 120
counted. -/
def fila_c8 : Row :=
  { contenedores_asignados := some 100, contenedores_contados := some 120 }

/-- C8: for every filtered set the backlog is `max(assigned - counted, 0)`
and hence never negative; in the scenario with 100 assigned and 120
counted containers the progress ratio is 1.2 (not clamped) and the
backlog is 0. -/
theorem c8_theorem :
    (∀ rows : List Row,
      backlog_contenedores rows
          = max (total_contenedores_asig rows - total_contenedores_cont rows) 0
        ∧ 0 ≤ backlog_contenedores rows
        ∧ backlog_ubicaciones rows
          = max (total_ubic_asig rows - total_ubic_cont rows) 0
        ∧ 0 ≤ backlog_ubicaciones rows)
    ∧ avance_contenedores [fila_c8] = 6/5
    ∧ backlog_contenedores [fila_c8] = 0 := by
  refine ⟨fun rows => ⟨rfl, le_max_right _ _, rfl, le_max_right _ _⟩, ?_, ?_⟩
  · norm_num [avance_contenedores, total_contenedores_asig, total_contenedores_cont, fila_c8]
  · norm_num [backlog_contenedores, total_contenedores_asig, total_contenedores_cont, fila_c8]

/-- Row 1 of the C5 scenario: code "A", status "Completado", no pct. -/
def fila5_1 : Row :=
  { codigo_inventario := some "A", estado_de_inventario := some "Completado",
    pct_completado := PyVal.none }

/-- Row 2 of the C5 scenario: code "A", status "En curso", pct 0.4. -/
def fila5_2 : Row :=
  { codigo_inventario := some "A", estado_de_inventario := some "En curso",
    pct_completado := PyVal.num 0.4 }

/-- Row 3 of the C5 scenario: code "B", status "Pendiente", pct 0.95. -/
def fila5_3 : Row :=
  { codigo_inventario := some "B", estado_de_inventario := some "Pendiente",
    pct_completado := PyVal.num 0.95 }

/-- The C5 scenario row set. -/
def filas_c5 : List Row := [fila5_1, fila5_2, fila5_3]

/-- C5: on the three-row scenario the pipeline yields 2 distinct
inventories, 1 fulfilled inventory and completion rate 0.5; only "A" is
fulfilled, and only through the status signal of its first row (every
percentage signal is false, and the status signals of rows 2 and 3 are
false). -/
theorem c5_theorem :
    inventarios_unicos filas_c5 = 2
    ∧ cumplidos filas_c5 = 1
    ∧ tasa_cumplimiento filas_c5 = 1/2
    ∧ mask_estado fila5_1 = true ∧ mask_pct fila5_1 = false
    ∧ mask_estado fila5_2 = false ∧ mask_pct fila5_2 = false
    ∧ mask_estado fila5_3 = false ∧ mask_pct fila5_3 = false := by
  have hm1 : mask_estado fila5_1 = true := by decide
  have hp1 : mask_pct fila5_1 = false := by decide
  have hm2 : mask_estado fila5_2 = false := by decide
  have hp2 : mask_pct fila5_2 = false := by
    norm_num [mask_pct, es_pct_completo, float?, fila5_2]
  have hm3 : mask_estado fila5_3 = false := by decide
  have hp3 : mask_pct fila5_3 = false := by
    norm_num [mask_pct, es_pct_completo, float?, fila5_3]
  have hfil : filas_c5.filter (fun r => mask_estado r || mask_pct r) = [fila5_1] := by
    simp [filas_c5, List.filter_cons, hm1, hp1, hm2, hp2, hm3, hp3]
  have hinv : inventarios_unicos filas_c5 = 2 := by decide
  have hcum : cumplidos filas_c5 = 1 := by
    rw [cumplidos, hfil]; decide
  refine ⟨hinv, hcum, ?_, hm1, hp1, hm2, hp2, hm3, hp3⟩
  rw [tasa_cumplimiento, hinv, hcum]
  norm_num

/-- C6: for every filtered row set the completion rate lies in `[0, 1]`,
and on the empty set it is 0. -/
theorem c6_theorem :
    (∀ rows : List Row, 0 ≤ tasa_cumplimiento rows ∧ tasa_cumplimiento rows ≤ 1)
    ∧ tasa_cumplimiento [] = 0 := by
  constructor
  · intro rows
    have hle : cumplidos rows ≤ inventarios_unicos rows := by
      apply Finset.card_le_card
      intro x hx
      simp only [List.mem_toFinset, List.mem_filterMap] at hx ⊢
      obtain ⟨r, hr, hrx⟩ := hx
      exact ⟨r, (List.mem_filter.mp hr).1, hrx⟩
    unfold tasa_cumplimiento
    split
    · exact ⟨le_refl 0, zero_le_one⟩
    · rename_i h
      have hpos : 0 < (inventarios_unicos rows : ℚ) := by
        exact_mod_cast Nat.pos_of_ne_zero h
      constructor
      · positivity
      · rw [div_le_one hpos]
        exact_mod_cast hle
  · rfl

/-- C7: every ratio KPI with a zero denominator evaluates to 0: the
progress ratios when the assigned total is 0, the global productivities
when the hour total is 0, and the average duration per inventory and the
completion rate when there are no distinct inventories. -/
theorem c7_theorem (rows : List Row) :
    (total_contenedores_asig rows = 0 → avance_contenedores rows = 0)
    ∧ (total_ubic_asig rows = 0 → avance_ubicaciones rows = 0)
    ∧ (total_horas rows = 0 → prod_global_cont rows = 0 ∧ prod_global_ubic rows = 0)
    ∧ (inventarios_unicos rows = 0 →
        duracion_prom_por_inv rows = 0 ∧ tasa_cumplimiento rows = 0) := by
  refine ⟨fun h => by simp [avance_contenedores, h],
          fun h => by simp [avance_ubicaciones, h],
          fun h => ⟨by simp [prod_global_cont, h], by simp [prod_global_ubic, h]⟩,
          fun h => ⟨by simp [duracion_prom_por_inv, h], by simp [tasa_cumplimiento, h]⟩⟩

/-- C7 (witness): instance of `c7_theorem` on the empty filtered set,
where every denominator is 0. -/
theorem c7_witness :
    avance_contenedores [] = 0 ∧ avance_ubicaciones [] = 0
    ∧ prod_global_cont [] = 0 ∧ prod_global_ubic [] = 0
    ∧ duracion_prom_por_inv [] = 0 ∧ tasa_cumplimiento [] = 0 :=
  ⟨(c7_theorem []).1 rfl, (c7_theorem []).2.1 rfl,
   ((c7_theorem []).2.2.1 rfl).1, ((c7_theorem []).2.2.1 rfl).2,
   ((c7_theorem []).2.2.2 rfl).1, ((c7_theorem []).2.2.2 rfl).2⟩

/-- C9: when some required canonical field is missing from the
normalized headers, the pipeline fails with the `faltantes` error, that
error contains every missing canonical field, and no KPI bundle is ever
produced. -/
theorem c9_theorem (cols : List String) (rows : List Row) (c : String)
    (hc : c ∈ requeridas) (hmiss : cols.contains c = false) :
    procesar cols rows = Except.error (faltantes cols)
    ∧ (∀ c2 ∈ requeridas, cols.contains c2 = false → c2 ∈ faltantes cols)
    ∧ (∀ k : KPIs, procesar cols rows ≠ Except.ok k) := by
  have hmem : c ∈ faltantes cols := List.mem_filter.mpr ⟨hc, by simpa using hmiss⟩
  have hne : faltantes cols ≠ [] := List.ne_nil_of_mem hmem
  have hproc : procesar cols rows = Except.error (faltantes cols) := by
    rw [procesar, if_neg hne]
  refine ⟨hproc, fun c2 h2 hn2 => List.mem_filter.mpr ⟨h2, by simpa using hn2⟩,
    fun k hk => ?_⟩
  rw [hproc] at hk
  exact absurd hk (by simp)

/-- C9 (witness): instance of `c9_theorem` on an empty header list
(every required field missing, e.g. `"cliente"`). -/
theorem c9_witness : procesar [] [] = Except.error (faltantes []) :=
  (c9_theorem [] [] ("cliente") (by decide) rfl).1

/-- C10: under the default `FilterSelection` (each dimension's selection
is the observed non-missing values), a row with a missing value in any
of the five categorical filter dimensions is excluded from the filtered
set (hence contributes to no KPI, contributor summary or breakdown, all
of which are functions of the filtered set); a row with all five
dimensions present is kept regardless of its `contador`, and every kept
row's `contador` — including the missing value — is one of the
`groupby(dropna=False)` keys of the contributor summary. -/
theorem c10_theorem (rows : List Row) (r : Row) (hr : r ∈ rows) :
    ((r.cliente = Option.none ∨ r.coordinador = Option.none ∨
      r.tipo_de_inventario = Option.none ∨ r.estado_de_inventario = Option.none ∨
      r.prioridad = Option.none) → r ∉ filtro_defecto rows)
    ∧ (r.cliente.isSome = true → r.coordinador.isSome = true →
       r.tipo_de_inventario.isSome = true → r.estado_de_inventario.isSome = true →
       r.prioridad.isSome = true → r ∈ filtro_defecto rows)
    ∧ (r ∈ filtro_defecto rows → r.contador ∈ contadores (filtro_defecto rows)) := by
  refine ⟨?_, ?_, ?_⟩
  · intro hcase hmem
    have hpass := (List.mem_filter.mp hmem).2
    simp only [pasa_filtro_defecto, Bool.and_eq_true] at hpass
    rcases hcase with h | h | h | h | h <;> simp [en_seleccion, h] at hpass
  · intro h1 h2 h3 h4 h5
    rw [filtro_defecto, List.mem_filter]
    refine ⟨hr, ?_⟩
    obtain ⟨v1, hv1⟩ := Option.isSome_iff_exists.mp h1
    obtain ⟨v2, hv2⟩ := Option.isSome_iff_exists.mp h2
    obtain ⟨v3, hv3⟩ := Option.isSome_iff_exists.mp h3
    obtain ⟨v4, hv4⟩ := Option.isSome_iff_exists.mp h4
    obtain ⟨v5, hv5⟩ := Option.isSome_iff_exists.mp h5
    simp only [pasa_filtro_defecto, Bool.and_eq_true]
    refine ⟨⟨⟨⟨?_, ?_⟩, ?_⟩, ?_⟩, ?_⟩ <;>
      simp only [en_seleccion, hv1, hv2, hv3, hv4, hv5, seleccion_defecto] <;>
      exact List.elem_iff.mpr (List.mem_dedup.mpr
        (List.mem_filterMap.mpr ⟨r, hr, by simp [hv1, hv2, hv3, hv4, hv5]⟩))
  · intro hmem
    rw [contadores]
    exact List.mem_dedup.mpr (List.mem_map_of_mem Row.contador hmem)

/-- A row excluded by the default filter: its `cliente` is missing. -/
def fila_c10_mala : Row :=
  { cliente := Option.none, coordinador := some "k", tipo_de_inventario := some "t",
    estado_de_inventario := some "e", prioridad := some "p", contador := some "x" }

/-- A row kept by the default filter although its `contador` is missing. -/
def fila_c10_buena : Row :=
  { cliente := some "c", coordinador := some "k", tipo_de_inventario := some "t",
    estado_de_inventario := some "e", prioridad := some "p", contador := Option.none }

/-- The C10 witness row set. -/
def filas_c10 : List Row := [fila_c10_mala, fila_c10_buena]

/-- C10 (witness): instance of `c10_theorem` — the missing-`cliente` row
is excluded, the missing-`contador` row is kept. -/
theorem c10_witness :
    fila_c10_mala ∉ filtro_defecto filas_c10
    ∧ fila_c10_buena ∈ filtro_defecto filas_c10 :=
  ⟨(c10_theorem filas_c10 fila_c10_mala (by decide)).1 (Or.inl rfl),
   (c10_theorem filas_c10 fila_c10_buena (by decide)).2.1 rfl rfl rfl rfl rfl⟩
